import Mathlib

/-!
# Verification of the codeface pool worker

A shallow embedding of `src/worker/worker.go` and `src/cmd/cf-client/main.go`
from the codeface repository, together with theorems settling the
specification's claims about the reconciliation loop, the capacity
arithmetic, the fan-out deploy group and the one-shot CLI tool.

Go `int` values are modelled as `Int` (no overflow is relevant at these
magnitudes); fallible calls are modelled as `Except Err _`; the remote
platform is modelled by passing the successive results of its calls as
explicit parameters.  Functions of the `editor` package (not part of the
worker source) are modelled from the spec where their internals matter and
are otherwise abstract parameters.
-/

/-- Error values (Go `error`); `String` suffices for the model. -/
abbrev Err := String

/-- A remote application instance as seen through the listing call. -/
structure App where
  name : String
  deriving DecidableEq, Repr

/-- Modelled from the spec: the result of one `editor.AllIdledApps` listing
call — the classifier splits the full listing into instances on the current
template version and instances on any other (outdated) version, both in
the platform's listing order. -/
structure Snapshot where
  current : List App
  other : List App
  deriving DecidableEq, Repr

/-- Worker configuration (`worker.Config`): `BatchSize`, `PoolSize`,
the template directory and (for the model) nothing else. -/
structure Config where
  batchSize : Int
  poolSize : Int
  templateDir : String
  deriving Repr

/-- The Go capping idiom used twice in `worker.go`:
`n := batch; if n > i { n = i }` — i.e. `min batch i`, written exactly as
the source computes it. -/
def capGo (batch i : Int) : Int :=
  if batch > i then i else batch

/-- The raw addition count computed in `addAppsToPool`:
`i := w.cfg.PoolSize - len(currentVersion); n := w.cfg.BatchSize;
if n > i { n = i }`.  May be negative when the pool is over target. -/
def additionsRaw (cfg : Config) (currentCount : Nat) : Int :=
  capGo cfg.batchSize (cfg.poolSize - (currentCount : Int))

/-- The number of deploy actors actually added to the run group:
the loop `for j := 0; j < n; j++` performs `max 0 n` iterations. -/
def additionsLaunched (cfg : Config) (currentCount : Nat) : Nat :=
  (additionsRaw cfg currentCount).toNat

/-- The removal count computed in `removeOutdatedApps`:
`i := len(otherVersion); n := w.cfg.BatchSize; if n > i { n = i }`. -/
def removalsPlanned (batch : Int) (otherCount : Nat) : Int :=
  capGo batch (otherCount : Int)

/-- Semantics of `oklog/run.Group.Run` for the deploy fan-out:
with no actors it returns `nil`; otherwise it waits for the FIRST actor to
return, calls every interrupt function (here: `cancel()` on the shared
context), waits for the rest, and returns the first actor's result —
whether that result is an error or `nil`.  `intrinsic j` is what deploy
actor `j` returns when it is the first to finish (`none` = success);
`order` is the order in which the actors return. -/
def groupRun (intrinsic : Nat → Option Err) (order : List Nat) : Option Err :=
  match order with
  | [] => none
  | first :: _ => intrinsic first

/-- The actors whose shared context is cancelled by the first return:
every actor other than the first to finish observes `cancel()`. -/
def canceledAfterFirstReturn (order : List Nat) : List Nat :=
  order.drop 1

/-- `order` is a completion order for `n` actors: a permutation of their
indices `0, …, n-1`. -/
def ValidOrder (n : Nat) (order : List Nat) : Prop :=
  order.Perm (List.range n)

instance (n : Nat) (order : List Nat) : Decidable (ValidOrder n order) :=
  inferInstanceAs (Decidable (order.Perm (List.range n)))

/-- `Worker.addAppsToPool`: fetch a snapshot via `editor.AllIdledApps`
(its result is the parameter `fetch`), return its error if it failed,
otherwise compute the addition count, add that many deploy actors to a
run group sharing one cancellable context, and return `g.Run()`'s result. -/
def addAppsToPool (cfg : Config) (fetch : Except Err Snapshot)
    (intrinsic : Nat → Option Err) (order : List Nat) : Except Err Unit :=
  match fetch with
  | .error e => .error e
  | .ok snap =>
      let n := additionsLaunched cfg snap.current.length
      if n = 0 then .ok ()
      else
        match groupRun intrinsic order with
        | some e => .error e
        | none => .ok ()

/-- Modelled from the spec: `editor.DeleteApp` is best-effort — it deletes
one instance, logging and swallowing any failure, and returns nothing to
its caller.  `okDel a` records whether the deletion of `a` succeeded; the
pair `(a, okDel a)` is the log entry for the attempt. -/
def deleteApp (okDel : App → Bool) (a : App) : App × Bool :=
  (a, okDel a)

/-- `Worker.removeOutdatedApps`: fetch a snapshot via `editor.AllIdledApps`
(parameter `fetch`), return its error if it failed, otherwise cap the
outdated count by the batch size and delete the first `n` outdated
instances in listing order, one by one, ignoring per-instance failures.
Returns the list of deletion attempts (instance, success flag). -/
def removeOutdatedApps (batch : Int) (okDel : App → Bool)
    (fetch : Except Err Snapshot) : Except Err (List (App × Bool)) :=
  match fetch with
  | .error e => .error e
  | .ok snap =>
      let n := capGo batch (snap.other.length : Int)
      .ok ((snap.other.take n.toNat).map (deleteApp okDel))

/-- The observable outcome of one invocation of the `work` closure inside
`Worker.Start`: how many `AllIdledApps` listing calls were made, how many
deploy actors were launched, the addition phase's error (if any), whether
the removal phase ran at all, its deletion attempts and its error. -/
structure CycleResult where
  listingCalls : Nat
  launched : Nat
  additionErr : Option Err
  removalRan : Bool
  removed : List (App × Bool)
  removalErr : Option Err
  deriving DecidableEq, Repr

/-- One reconciliation cycle (the `work` closure in `Worker.Start`):
run `addAppsToPool`; on error, log and return without removing; otherwise
run `removeOutdatedApps`.  `fetch k` is the result of the `k`-th
`AllIdledApps` call of this cycle (the addition phase makes call `0`; the
removal phase, when reached, makes call `1`). -/
def runCycle (cfg : Config) (okDel : App → Bool)
    (fetch : Nat → Except Err Snapshot)
    (intrinsic : Nat → Option Err) (order : List Nat) : CycleResult :=
  let launched :=
    match fetch 0 with
    | .error _ => 0
    | .ok snap => additionsLaunched cfg snap.current.length
  match addAppsToPool cfg (fetch 0) intrinsic order with
  | .error e =>
      { listingCalls := 1, launched := launched, additionErr := some e,
        removalRan := false, removed := [], removalErr := none }
  | .ok _ =>
      match removeOutdatedApps cfg.batchSize okDel (fetch 1) with
      | .error e =>
          { listingCalls := 2, launched := launched, additionErr := none,
            removalRan := true, removed := [], removalErr := some e }
      | .ok attempts =>
          { listingCalls := 2, launched := launched, additionErr := none,
            removalRan := true, removed := attempts, removalErr := none }

/-- The result of `os.Stat(w.cfg.TemplateDir)` as the worker inspects it:
the guard is `os.IsNotExist(err)`, which is true only for a not-exist
error — an existing-but-inaccessible path yields a different error
(`permissionDenied` here) for which the guard is false. -/
inductive StatResult
  | ok
  | notExist
  | permissionDenied
  deriving DecidableEq, Repr

/-- Events observed by the scheduler loop's `select`: a ticker firing, or
the context's `Done` channel closing (shutdown request). -/
inductive Ev
  | tick
  | done
  deriving DecidableEq, Repr

/-- The `for { select … } }` loop of `Worker.Start`, having already run
`cycles` invocations of `work`.  Returns the total number of `work`
invocations and whether the loop returned (`true` = `Start` returned
`nil` after observing `ctx.Done()`; `false` = still waiting for events). -/
def loopRun : Nat → List Ev → Nat × Bool
  | cycles, [] => (cycles, false)
  | cycles, .tick :: rest => loopRun (cycles + 1) rest
  | cycles, .done :: _ => (cycles, true)

/-- The observable outcome of `Worker.Start`: the error it returned (if
any), the number of `work` cycles it ran, and whether it returned `nil`
after a shutdown request. -/
structure StartRun where
  err : Option Err
  cycles : Nat
  returnedNil : Bool
  deriving DecidableEq, Repr

/-- `Worker.Start`: stat the template directory and return an error if it
does not exist (before any cycle, any ticker and any remote call); then
run `work()` once immediately, and enter the timer loop. -/
def startScheduler (stat : StatResult) (evs : List Ev) : StartRun :=
  if stat = StatResult.notExist then
    { err := some "template directory does not exist", cycles := 0,
      returnedNil := false }
  else
    let r := loopRun 1 evs
    { err := none, cycles := r.1, returnedNil := r.2 }

/-- The number of ticks the scheduler consumes before the first shutdown
event (all of `evs` if no shutdown event occurs). -/
def ticksBeforeDone : List Ev → Nat
  | [] => 0
  | .tick :: rest => ticksBeforeDone rest + 1
  | .done :: _ => 0

/-- Outcome of `cmd/cf-client/main.go`: `fatal` is `log.Fatal`/`log.Fatalf`
(logs the error and exits with a non-zero status); `printed` is the line
written to standard output on success. -/
inductive CliOutcome
  | fatal (msg : String)
  | printed (line : String)
  deriving DecidableEq, Repr

/-- `main` of the one-shot deploy tool `cmd/cf-client`: read
`HEROKU_API_TOKEN` and `HEROKU_APP` from the environment (empty string =
unset), fail fast if either is missing, otherwise deploy and either fail
with the deploy error or print `Visit <url>` to standard output.
`deploy app` is the result of `deployer.Deploy(ctx, app, os.Stderr)`. -/
def cfClientMain (token app : String) (deploy : String → Except String String) :
    CliOutcome :=
  if token = "" || app = "" then
    CliOutcome.fatal "Provide HEROKU_API_TOKEN and HEROKU_APP"
  else
    match deploy app with
    | .error e => CliOutcome.fatal e
    | .ok url => CliOutcome.printed ("Visit " ++ url ++ "\n")

example : capGo 2 1 = 1 := rfl
example : capGo 2 (-1) = -1 := rfl
example : additionsLaunched ⟨2, 5, "t"⟩ 3 = 2 := rfl
example : additionsLaunched ⟨2, 5, "t"⟩ 6 = 0 := rfl
example : removalsPlanned 2 1 = 1 := rfl
example : loopRun 1 [Ev.tick, Ev.done] = (2, true) := rfl
example :
    cfClientMain "tok" "app" (fun _ => .ok "https://x") =
      CliOutcome.printed "Visit https://x\n" := rfl

/-! ## Helper lemmas -/

theorem capGo_toNat (b : Int) (l : Nat) (hb : 0 ≤ b) :
    (capGo b (l : Int)).toNat = min b.toNat l := by
  simp only [capGo]
  split <;> omega

theorem loopRun_spec (evs : List Ev) (c : Nat) :
    (loopRun c evs).1 = c + ticksBeforeDone evs ∧
    ((loopRun c evs).2 = true ↔ Ev.done ∈ evs) := by
  induction evs generalizing c with
  | nil => simp [loopRun, ticksBeforeDone]
  | cons e rest ih =>
      cases e with
      | tick =>
          have h := ih (c + 1)
          simp only [loopRun, ticksBeforeDone, List.mem_cons] at h ⊢
          exact ⟨by omega, by simp [h.2]⟩
      | done => simp [loopRun, ticksBeforeDone]

/-! ## Claims -/

/-- C3: for batchSize, poolSize, currentCount ≥ 0, the number of deploys
planned (= launched by the addition loop) equals
`min batchSize (max 0 (poolSize - currentCount))`; it is never negative,
is at most `batchSize`, and is `0` whenever `currentCount ≥ poolSize`. -/
theorem additionsLaunched_spec (cfg : Config) (currentCount : Nat)
    (hb : 0 ≤ cfg.batchSize) (hp : 0 ≤ cfg.poolSize) :
    (additionsLaunched cfg currentCount : Int) =
        min cfg.batchSize (max 0 (cfg.poolSize - (currentCount : Int))) ∧
    (additionsLaunched cfg currentCount : Int) ≤ cfg.batchSize ∧
    (cfg.poolSize ≤ (currentCount : Int) →
        additionsLaunched cfg currentCount = 0) := by
  refine ⟨?_, ?_, ?_⟩ <;>
    · simp only [additionsLaunched, additionsRaw, capGo]
      split <;> omega

/-- C3 witness: the spec scenario poolSize=5, batchSize=2, currentCount=3
gives 2 planned additions. -/
theorem additionsLaunched_spec_witness :
    (additionsLaunched ⟨2, 5, "t"⟩ 3 : Int) =
        min (2 : Int) (max 0 ((5 : Int) - (3 : Nat))) ∧
    (additionsLaunched ⟨2, 5, "t"⟩ 3 : Int) ≤ 2 ∧
    ((5 : Int) ≤ ((3 : Nat) : Int) → additionsLaunched ⟨2, 5, "t"⟩ 3 = 0) :=
  additionsLaunched_spec ⟨2, 5, "t"⟩ 3 (by decide) (by decide)

/-- C5: for batchSize, otherCount ≥ 0 the planned removal count equals
`min batchSize otherCount`, lies in `[0, batchSize]`, never exceeds
`otherCount`, and is `0` when there are no outdated instances. -/
theorem removalsPlanned_spec (batch : Int) (otherCount : Nat)
    (hb : 0 ≤ batch) :
    removalsPlanned batch otherCount = min batch (otherCount : Int) ∧
    0 ≤ removalsPlanned batch otherCount ∧
    removalsPlanned batch otherCount ≤ batch ∧
    removalsPlanned batch otherCount ≤ (otherCount : Int) ∧
    (otherCount = 0 → removalsPlanned batch otherCount = 0) := by
  refine ⟨?_, ?_, ?_, ?_, ?_⟩ <;>
    · simp only [removalsPlanned, capGo]
      split <;> omega

/-- C5 witness: the spec scenario otherCount=1, batchSize=2 gives 1
planned removal. -/
theorem removalsPlanned_spec_witness :
    removalsPlanned 2 1 = min (2 : Int) ((1 : Nat) : Int) ∧
    0 ≤ removalsPlanned 2 1 ∧
    removalsPlanned 2 1 ≤ 2 ∧
    removalsPlanned 2 1 ≤ ((1 : Nat) : Int) ∧
    ((1 : Nat) = 0 → removalsPlanned 2 1 = 0) :=
  removalsPlanned_spec 2 1 (by decide)

/-- C2 (bug evaluation): a batch of 2 deploys in which the first actor to
return succeeds while the sibling's own result is a failure.  The run
group returns the FIRST actor's result, so `addAppsToPool` reports
success (`.ok`) even though deploy 1 failed, and the sibling is cancelled
by the SUCCESS of deploy 0 — contradicting the claim that only a failure
cancels siblings and that success is reported only when every deploy
succeeded. -/
theorem addAppsToPool_first_return_wins :
    addAppsToPool ⟨2, 5, "t"⟩
        (.ok ⟨[⟨"a1"⟩, ⟨"a2"⟩, ⟨"a3"⟩], []⟩)
        (fun j => if j = 0 then none else some "deploy failed")
        [0, 1] = .ok () ∧
    (fun j : Nat => if j = 0 then none else some "deploy failed") 1 =
        some "deploy failed" ∧
    ValidOrder (additionsLaunched ⟨2, 5, "t"⟩ 3) [0, 1] ∧
    canceledAfterFirstReturn [0, 1] = [1] := by
  refine ⟨rfl, rfl, ?_, rfl⟩
  decide

/-- C7 counterexample: a template directory that exists but is
inaccessible (`os.Stat` yields a permission error) does NOT make
`Worker.Start` return early: `os.IsNotExist` is false for it, so the loop
proceeds and runs a cycle, returning no error. -/
theorem startScheduler_inaccessible_counterexample :
    (startScheduler StatResult.permissionDenied [Ev.done]).err = none ∧
    (startScheduler StatResult.permissionDenied [Ev.done]).cycles = 1 ∧
    (startScheduler StatResult.permissionDenied [Ev.done]).returnedNil
        = true := by
  refine ⟨rfl, rfl, rfl⟩

/-- C7 (amended): only when the template directory stat reports
not-exist does `Worker.Start` return an error; it then does so before any
cycle runs and before any ticker event is consumed — zero cycles, hence
zero remote platform calls (every remote call in `Start` happens inside a
cycle), and no clean-shutdown `nil` return. -/
theorem startScheduler_not_exist (evs : List Ev) :
    (startScheduler StatResult.notExist evs).err =
        some "template directory does not exist" ∧
    (startScheduler StatResult.notExist evs).cycles = 0 ∧
    (startScheduler StatResult.notExist evs).returnedNil = false := by
  refine ⟨rfl, rfl, rfl⟩

/-- C1 counterexample: with both listing calls succeeding, one cycle makes
TWO listing calls, and the removal count is computed from the second
(removal-phase) snapshot, not the one the addition phase used: here the
addition-phase snapshot contains one outdated instance, yet no removal
happens because the removal phase's own fresh listing reports none. -/
theorem runCycle_two_listings_counterexample :
    runCycle ⟨2, 5, "t"⟩ (fun _ => true)
        (fun k => if k = 0
          then .ok ⟨[⟨"a1"⟩, ⟨"a2"⟩, ⟨"a3"⟩, ⟨"a4"⟩, ⟨"a5"⟩], [⟨"old1"⟩]⟩
          else .ok ⟨[⟨"a1"⟩, ⟨"a2"⟩, ⟨"a3"⟩, ⟨"a4"⟩, ⟨"a5"⟩], []⟩)
        (fun _ => none) [] =
      { listingCalls := 2, launched := 0, additionErr := none,
        removalRan := true, removed := [], removalErr := none } := by
  rfl

/-- C1 (amended): the addition phase and the removal phase each perform
their own listing call.  If the addition phase's fetch fails, the whole
cycle aborts after one listing call and the removal phase is skipped;
whenever the removal phase runs, the cycle has made two listing calls and
the removal count and victims are computed from the removal phase's own
(second) snapshot. -/
theorem runCycle_fetch_coupling (cfg : Config) (okDel : App → Bool)
    (fetch : Nat → Except Err Snapshot) (intrinsic : Nat → Option Err)
    (order : List Nat) :
    (∀ e, fetch 0 = .error e →
        runCycle cfg okDel fetch intrinsic order =
          { listingCalls := 1, launched := 0, additionErr := some e,
            removalRan := false, removed := [], removalErr := none }) ∧
    ((runCycle cfg okDel fetch intrinsic order).removalRan = true →
        (runCycle cfg okDel fetch intrinsic order).listingCalls = 2) ∧
    (∀ snap, (runCycle cfg okDel fetch intrinsic order).removalRan = true →
        fetch 1 = .ok snap →
        (runCycle cfg okDel fetch intrinsic order).removed =
          (snap.other.take
              (capGo cfg.batchSize (snap.other.length : Int)).toNat).map
            (deleteApp okDel)) := by
  refine ⟨?_, ?_, ?_⟩
  · intro e he
    simp [runCycle, addAppsToPool, he]
  · simp only [runCycle]
    rcases h0 : addAppsToPool cfg (fetch 0) intrinsic order with e | u
    · simp
    · rcases h1 : removeOutdatedApps cfg.batchSize okDel (fetch 1) with
        e | atts <;> simp
  · intro snap hran h1
    simp only [runCycle] at hran ⊢
    rcases h0 : addAppsToPool cfg (fetch 0) intrinsic order with e | u
    · rw [h0] at hran
      simp at hran
    · simp only [removeOutdatedApps, h1]

/-- C1 witness: a failed addition-phase fetch makes the whole cycle abort
after one listing call, with no removal. -/
theorem runCycle_fetch_coupling_witness :
    runCycle ⟨2, 5, "t"⟩ (fun _ => true) (fun _ => .error "listing failed")
        (fun _ => none) [] =
      { listingCalls := 1, launched := 0,
        additionErr := some "listing failed", removalRan := false,
        removed := [], removalErr := none } :=
  (runCycle_fetch_coupling ⟨2, 5, "t"⟩ (fun _ => true)
      (fun _ => .error "listing failed") (fun _ => none) []).1
    "listing failed" rfl

/-- C4: if the addition phase returns an error, the removal phase does not
run in that cycle; if the addition phase succeeds and the removal phase's
listing yields a snapshot, exactly `min batchSize otherCount` removals are
performed, on the first instances of the outdated sequence in the order
the listing returned them. -/
theorem runCycle_removal_after_addition (cfg : Config) (okDel : App → Bool)
    (fetch : Nat → Except Err Snapshot) (intrinsic : Nat → Option Err)
    (order : List Nat) (snap : Snapshot) (hb : 0 ≤ cfg.batchSize) :
    ((runCycle cfg okDel fetch intrinsic order).additionErr.isSome = true →
        (runCycle cfg okDel fetch intrinsic order).removalRan = false ∧
        (runCycle cfg okDel fetch intrinsic order).removed = []) ∧
    ((runCycle cfg okDel fetch intrinsic order).additionErr = none →
        fetch 1 = .ok snap →
        (runCycle cfg okDel fetch intrinsic order).removed.map Prod.fst =
            snap.other.take (min cfg.batchSize.toNat snap.other.length) ∧
        (runCycle cfg okDel fetch intrinsic order).removed.length =
            min cfg.batchSize.toNat snap.other.length) := by
  constructor
  · simp only [runCycle]
    rcases h0 : addAppsToPool cfg (fetch 0) intrinsic order with e | u
    · simp
    · rcases h1 : removeOutdatedApps cfg.batchSize okDel (fetch 1) with
        e | atts <;> simp
  · intro hnone h1
    simp only [runCycle] at hnone ⊢
    rcases h0 : addAppsToPool cfg (fetch 0) intrinsic order with e | u
    · rw [h0] at hnone
      simp at hnone
    · simp only [removeOutdatedApps, h1]
      rw [capGo_toNat cfg.batchSize snap.other.length hb]
      constructor
      · simp only [List.map_map]
        have hid : (Prod.fst ∘ deleteApp okDel) = id := by
          funext a
          rfl
        simp [hid]
      · simp only [List.length_map, List.length_take]
        omega

/-- C4 witness: with a successful two-deploy addition phase and three
outdated instances listed by the removal phase, exactly two removals
happen, on the first two outdated instances in listing order. -/
theorem runCycle_removal_after_addition_witness :
    (runCycle ⟨2, 5, "t"⟩ (fun _ => true)
        (fun k => if k = 0 then .ok ⟨[], []⟩
          else .ok ⟨[], [⟨"o1"⟩, ⟨"o2"⟩, ⟨"o3"⟩]⟩)
        (fun _ => none) [0, 1]).removed.map Prod.fst =
      (Snapshot.mk [] [⟨"o1"⟩, ⟨"o2"⟩, ⟨"o3"⟩]).other.take
        (min (Int.toNat 2)
          (Snapshot.mk [] [⟨"o1"⟩, ⟨"o2"⟩, ⟨"o3"⟩]).other.length) ∧
    (runCycle ⟨2, 5, "t"⟩ (fun _ => true)
        (fun k => if k = 0 then .ok ⟨[], []⟩
          else .ok ⟨[], [⟨"o1"⟩, ⟨"o2"⟩, ⟨"o3"⟩]⟩)
        (fun _ => none) [0, 1]).removed.length =
      min (Int.toNat 2) (Snapshot.mk [] [⟨"o1"⟩, ⟨"o2"⟩, ⟨"o3"⟩]).other.length :=
  (runCycle_removal_after_addition ⟨2, 5, "t"⟩ (fun _ => true)
      (fun k => if k = 0 then .ok ⟨[], []⟩
        else .ok ⟨[], [⟨"o1"⟩, ⟨"o2"⟩, ⟨"o3"⟩]⟩)
      (fun _ => none) [0, 1] ⟨[], [⟨"o1"⟩, ⟨"o2"⟩, ⟨"o3"⟩]⟩
      (by decide)).2 rfl rfl

/-- C6: when the template directory check passes, `Worker.Start` runs one
full cycle synchronously before its first timer wait (one cycle plus one
per tick before shutdown), and a shutdown request makes the loop stop and
`Start` return `nil` — never an error. -/
theorem startScheduler_spec (stat : StatResult) (evs : List Ev)
    (hs : stat ≠ StatResult.notExist) :
    (startScheduler stat evs).err = none ∧
    (startScheduler stat evs).cycles = 1 + ticksBeforeDone evs ∧
    1 ≤ (startScheduler stat evs).cycles ∧
    ((startScheduler stat evs).returnedNil = true ↔ Ev.done ∈ evs) := by
  have h := loopRun_spec evs 1
  have h1 := h.1
  unfold startScheduler
  rw [if_neg hs]
  refine ⟨rfl, h.1, ?_, h.2⟩
  show 1 ≤ (loopRun 1 evs).1
  omega

/-- C6 witness: with an existing template directory, one tick and then a
shutdown request, the worker runs two cycles and returns `nil`. -/
theorem startScheduler_spec_witness :
    (startScheduler StatResult.ok [Ev.tick, Ev.done]).err = none ∧
    (startScheduler StatResult.ok [Ev.tick, Ev.done]).cycles =
        1 + ticksBeforeDone [Ev.tick, Ev.done] ∧
    1 ≤ (startScheduler StatResult.ok [Ev.tick, Ev.done]).cycles ∧
    ((startScheduler StatResult.ok [Ev.tick, Ev.done]).returnedNil = true ↔
        Ev.done ∈ [Ev.tick, Ev.done]) :=
  startScheduler_spec StatResult.ok [Ev.tick, Ev.done] (by decide)

/-- C8: `removeOutdatedApps` returns an error exactly when its listing
call failed; per-instance deletion failures are never propagated and never
abort the batch — every one of the first `n` outdated instances gets a
deletion attempt, and the set of attempted instances does not depend on
which deletions fail. -/
theorem removeOutdatedApps_best_effort (batch : Int)
    (okDel okDel2 : App → Bool) (fetch : Except Err Snapshot) :
    (∀ e, removeOutdatedApps batch okDel fetch = .error e ↔
        fetch = .error e) ∧
    (∀ snap, fetch = .ok snap →
        removeOutdatedApps batch okDel fetch =
          .ok ((snap.other.take
                  (capGo batch (snap.other.length : Int)).toNat).map
                (deleteApp okDel)) ∧
        Except.map (List.map Prod.fst)
            (removeOutdatedApps batch okDel fetch) =
          Except.map (List.map Prod.fst)
            (removeOutdatedApps batch okDel2 fetch)) := by
  constructor
  · intro e
    cases fetch <;> simp [removeOutdatedApps]
  · intro snap hf
    subst hf
    refine ⟨rfl, ?_⟩
    simp [removeOutdatedApps, Except.map, List.map_map]
    have hid : ∀ f : App → Bool, (Prod.fst ∘ deleteApp f) = id := by
      intro f
      funext a
      rfl
    simp [hid]

/-- C8 witness: both deletions in a batch of two fail, yet the function
returns `.ok` with both attempts recorded, and the attempted instances
coincide with those of a run where every deletion succeeds. -/
theorem removeOutdatedApps_best_effort_witness :
    removeOutdatedApps 2 (fun _ => false)
        (.ok ⟨[], [⟨"o1"⟩, ⟨"o2"⟩]⟩) =
      .ok (((Snapshot.mk [] [⟨"o1"⟩, ⟨"o2"⟩]).other.take
              (capGo 2
                ((Snapshot.mk [] [⟨"o1"⟩, ⟨"o2"⟩]).other.length : Int)).toNat).map
            (deleteApp (fun _ => false))) ∧
    Except.map (List.map Prod.fst)
        (removeOutdatedApps 2 (fun _ => false)
          (.ok ⟨[], [⟨"o1"⟩, ⟨"o2"⟩]⟩)) =
      Except.map (List.map Prod.fst)
        (removeOutdatedApps 2 (fun _ => true)
          (.ok ⟨[], [⟨"o1"⟩, ⟨"o2"⟩]⟩)) :=
  (removeOutdatedApps_best_effort 2 (fun _ => false) (fun _ => true)
      (.ok ⟨[], [⟨"o1"⟩, ⟨"o2"⟩]⟩)).2 ⟨[], [⟨"o1"⟩, ⟨"o2"⟩]⟩ rfl

/-- C9: the one-shot deploy tool fails fast (logged error, non-zero exit)
when either environment variable is missing, fails with the deploy error
when the deploy fails, and on success prints the instance's access URL to
standard output. -/
theorem cfClientMain_spec (token app : String)
    (deploy : String → Except String String) :
    (token = "" ∨ app = "" →
        cfClientMain token app deploy =
          CliOutcome.fatal "Provide HEROKU_API_TOKEN and HEROKU_APP") ∧
    (∀ e, token ≠ "" → app ≠ "" → deploy app = .error e →
        cfClientMain token app deploy = CliOutcome.fatal e) ∧
    (∀ url, token ≠ "" → app ≠ "" → deploy app = .ok url →
        cfClientMain token app deploy =
          CliOutcome.printed ("Visit " ++ url ++ "\n")) := by
  refine ⟨?_, ?_, ?_⟩
  · intro h
    rcases h with h | h <;> simp [cfClientMain, h]
  · intro e ht ha hd
    simp [cfClientMain, ht, ha, hd]
  · intro url ht ha hd
    simp [cfClientMain, ht, ha, hd]

/-- C9 witness: a missing token is fatal, a failed deploy is fatal with
the deploy's error, and a successful deploy prints the access URL. -/
theorem cfClientMain_spec_witness :
    cfClientMain "" "app" (fun _ => .ok "u") =
        CliOutcome.fatal "Provide HEROKU_API_TOKEN and HEROKU_APP" ∧
    cfClientMain "tok" "app" (fun _ => .error "deploy failed") =
        CliOutcome.fatal "deploy failed" ∧
    cfClientMain "tok" "app" (fun _ => .ok "https://x") =
        CliOutcome.printed ("Visit " ++ "https://x" ++ "\n") :=
  ⟨(cfClientMain_spec "" "app" (fun _ => .ok "u")).1 (Or.inl rfl),
   (cfClientMain_spec "tok" "app" (fun _ => .error "deploy failed")).2.1
     "deploy failed" (by decide) (by decide) rfl,
   (cfClientMain_spec "tok" "app" (fun _ => .ok "https://x")).2.2
     "https://x" (by decide) (by decide) rfl⟩

/-- C10: when the listing succeeds and the pool is at or above target,
the addition phase launches zero deploy actors and returns `nil`, so the
removal phase still executes in that cycle. -/
theorem addAppsToPool_zero_additions (cfg : Config) (okDel : App → Bool)
    (fetch : Nat → Except Err Snapshot) (intrinsic : Nat → Option Err)
    (order : List Nat) (snap : Snapshot)
    (h0 : fetch 0 = .ok snap)
    (hfull : cfg.poolSize ≤ (snap.current.length : Int)) :
    additionsLaunched cfg snap.current.length = 0 ∧
    addAppsToPool cfg (fetch 0) intrinsic order = .ok () ∧
    (runCycle cfg okDel fetch intrinsic order).launched = 0 ∧
    (runCycle cfg okDel fetch intrinsic order).additionErr = none ∧
    (runCycle cfg okDel fetch intrinsic order).removalRan = true := by
  have hn : additionsLaunched cfg snap.current.length = 0 := by
    simp only [additionsLaunched, additionsRaw, capGo]
    split <;> omega
  have hadd : addAppsToPool cfg (Except.ok snap) intrinsic order = .ok () := by
    simp [addAppsToPool, hn]
  refine ⟨hn, by rw [h0]; exact hadd, ?_, ?_, ?_⟩ <;>
    · simp only [runCycle, h0, hadd, hn]
      rcases removeOutdatedApps cfg.batchSize okDel (fetch 1) with e | atts <;>
        simp

/-- C10 witness: a full pool of five current instances with poolSize 5
yields zero launched deploys, a `nil` addition phase and a removal phase
that still runs. -/
theorem addAppsToPool_zero_additions_witness :
    additionsLaunched ⟨2, 5, "t"⟩
        (Snapshot.mk [⟨"a1"⟩, ⟨"a2"⟩, ⟨"a3"⟩, ⟨"a4"⟩, ⟨"a5"⟩]
          [⟨"old1"⟩]).current.length = 0 ∧
    addAppsToPool ⟨2, 5, "t"⟩
        ((fun _ => .ok (Snapshot.mk [⟨"a1"⟩, ⟨"a2"⟩, ⟨"a3"⟩, ⟨"a4"⟩, ⟨"a5"⟩]
            [⟨"old1"⟩]) : Nat → Except Err Snapshot) 0)
        (fun _ => none) [] = .ok () ∧
    (runCycle ⟨2, 5, "t"⟩ (fun _ => true)
        (fun _ => .ok (Snapshot.mk [⟨"a1"⟩, ⟨"a2"⟩, ⟨"a3"⟩, ⟨"a4"⟩, ⟨"a5"⟩]
          [⟨"old1"⟩]))
        (fun _ => none) []).launched = 0 ∧
    (runCycle ⟨2, 5, "t"⟩ (fun _ => true)
        (fun _ => .ok (Snapshot.mk [⟨"a1"⟩, ⟨"a2"⟩, ⟨"a3"⟩, ⟨"a4"⟩, ⟨"a5"⟩]
          [⟨"old1"⟩]))
        (fun _ => none) []).additionErr = none ∧
    (runCycle ⟨2, 5, "t"⟩ (fun _ => true)
        (fun _ => .ok (Snapshot.mk [⟨"a1"⟩, ⟨"a2"⟩, ⟨"a3"⟩, ⟨"a4"⟩, ⟨"a5"⟩]
          [⟨"old1"⟩]))
        (fun _ => none) []).removalRan = true :=
  addAppsToPool_zero_additions ⟨2, 5, "t"⟩ (fun _ => true)
    (fun _ => .ok (Snapshot.mk [⟨"a1"⟩, ⟨"a2"⟩, ⟨"a3"⟩, ⟨"a4"⟩, ⟨"a5"⟩]
      [⟨"old1"⟩]))
    (fun _ => none) []
    (Snapshot.mk [⟨"a1"⟩, ⟨"a2"⟩, ⟨"a3"⟩, ⟨"a4"⟩, ⟨"a5"⟩] [⟨"old1"⟩])
    rfl (by decide)
